import Mathlib

/-!
Verification of the data-normalization and filtering pipeline of
`ch-songlist-mobile` (`src/app.py`): the song-list loader/normalizer
(`load_song_data`), the name/artist filter block, and the duration
formatter (`format_songlength`).

Shallow embedding conventions:
* Python runtime values that can sit in a JSON document or in a pandas
  cell are modelled by `PyVal`.  Python's float `nan` (which pandas uses
  for a missing cell) is a separate constructor, distinct from `None`.
* Finite Python floats are modelled as exact rationals; float division
  `x / 1000` is modelled as exact rational division.  This is exact for
  every value the claims touch (integers far below 2^53).
* A pandas `DataFrame` is modelled by `DF`: an ordered list of column
  names plus a list of rows, each row an association list from column
  name to cell value, built so that every row carries every column.
* `st.error` / `st.warning` side effects are modelled as the error /
  warning-list component of the result value.
* File I/O (`FileNotFoundError`, `json.JSONDecodeError`) happens before
  the code modelled here; `load_song_data` is modelled from the parsed
  JSON value onward.
-/

/-- Python runtime values appearing in a parsed JSON document or in a
pandas cell: `None`, float `nan`, booleans, integers, finite floats
(modelled as exact rationals), strings, lists and dicts. -/
inductive PyVal where
  | none
  | nan
  | bool (b : Bool)
  | int (n : Int)
  | float (q : Rat)
  | str (s : String)
  | list (xs : List PyVal)
  | dict (kvs : List (String × PyVal))

/-- Python `isinstance(v, dict)`. -/
def PyVal.isDict : PyVal → Bool
  | .dict _ => true
  | _ => false

/-- Python `repr` of a finite float modelled as a rational.  The exact
decimal rendering of Python float repr is immaterial to every claim
(no claim inspects the string form of a float); this rendering is a
faithful stand-in only in that distinct rationals render distinctly. -/
def floatRepr (q : Rat) : String :=
  if q.den = 1 then toString q.num ++ ".0"
  else toString q.num ++ "/" ++ toString q.den

/-- Single-quote character, for Python `repr` of strings. -/
def quoteChar : Char := Char.ofNat 39

mutual

/-- Python `str(v)` for a cell value, as applied elementwise by
`astype(str)`: `str(None) = "None"`, `str(nan) = "nan"`,
`str(True) = "True"`, numbers and strings print themselves, lists and
dicts print via `repr` of their elements. -/
def pyStr : PyVal → String
  | .none => "None"
  | .nan => "nan"
  | .bool b => if b then "True" else "False"
  | .int n => toString n
  | .float q => floatRepr q
  | .str s => s
  | .list xs => "[" ++ pyReprList xs ++ "]"
  | .dict kvs => "\x7b" ++ pyReprDict kvs ++ "\x7d"

/-- Python `repr(v)`: like `pyStr` but strings are quoted. -/
def pyRepr : PyVal → String
  | .str s => quoteChar.toString ++ s ++ quoteChar.toString
  | .none => "None"
  | .nan => "nan"
  | .bool b => if b then "True" else "False"
  | .int n => toString n
  | .float q => floatRepr q
  | .list xs => "[" ++ pyReprList xs ++ "]"
  | .dict kvs => "\x7b" ++ pyReprDict kvs ++ "\x7d"

/-- Comma-separated `repr` of list elements. -/
def pyReprList : List PyVal → String
  | [] => ""
  | [x] => pyRepr x
  | x :: xs => pyRepr x ++ ", " ++ pyReprList xs

/-- Comma-separated `repr` of dict entries. -/
def pyReprDict : List (String × PyVal) → String
  | [] => ""
  | [(k, v)] => quoteChar.toString ++ k ++ quoteChar.toString ++ ": " ++ pyRepr v
  | (k, v) :: kvs =>
      quoteChar.toString ++ k ++ quoteChar.toString ++ ": " ++ pyRepr v ++ ", " ++
        pyReprDict kvs

end

/-- pandas `notna` on a cell: false exactly for `None` and float `nan`. -/
def notna : PyVal → Bool
  | .none => false
  | .nan => false
  | _ => true

/-- Python dict lookup for a dict built from JSON key/value pairs: a
duplicated key keeps the last value. -/
def dictGet (kvs : List (String × PyVal)) (k : String) : Option PyVal :=
  kvs.foldl (fun acc kv => if kv.1 = k then some kv.2 else acc) Option.none

/-- Row of a DataFrame: an association list from column name to cell. -/
abbrev Row := List (String × PyVal)

/-- Cell of a row; a column absent from the row reads as `nan`, matching
how pandas fills missing keys when building a frame from dicts. -/
def getCell (r : Row) (c : String) : PyVal :=
  match r.find? (fun kv => kv.1 = c) with
  | Option.some kv => kv.2
  | Option.none => PyVal.nan

/-- Model of a pandas DataFrame: ordered column names and rows. -/
structure DF where
  cols : List String
  rows : List Row

/-- Column-name union in order of first appearance, as pandas computes
the columns of `pd.DataFrame(list_of_dicts)`. -/
def firstSeenKeys (items : List (List (String × PyVal))) : List String :=
  items.foldl (fun acc kvs =>
    kvs.foldl (fun acc2 kv => if kv.1 ∈ acc2 then acc2 else acc2 ++ [kv.1]) acc) []

/-- Keys/values of the dict elements of a list (already-filtered input). -/
def dictEntries : PyVal → List (String × PyVal)
  | .dict kvs => kvs
  | _ => []

/-- Model of `pd.DataFrame(data)` for a list of dicts: the columns are
the union of the keys in first-seen order; each row has every column,
with `nan` for a key missing from that record.  (pandas dtype inference
may further coerce `None` to `nan` inside purely numeric columns; the
object-dtype behaviour modelled here is the one every claim exercises.) -/
def mkDataFrame (items : List PyVal) : DF :=
  let cols := firstSeenKeys (items.map dictEntries)
  { cols := cols
    rows := items.map (fun it =>
      cols.map (fun c => (c, (dictGet (dictEntries it) c).getD PyVal.nan))) }

/-- Warnings the loader reports through `st.warning`. -/
inductive Warn where
  | nonDictItems
  | renamed (old new : String)
  | missingCols (cols : List String)
  | playlistMissing
  deriving DecidableEq, Repr

/-- Fatal loader outcomes reachable from a parsed JSON value.
(`FileNotFoundError` and `json.JSONDecodeError` occur before the parsed
value exists and are outside this model.) -/
inductive LoadError where
  | schemaError
  deriving DecidableEq, Repr

/-- Result of `load_song_data` modelled from the parsed JSON value: the
code returns `None` after `st.error` (a failure), or the DataFrame after
zero or more `st.warning` calls. -/
inductive LoadResult where
  | failure (e : LoadError)
  | success (df : DF) (warnings : List Warn)

/-- Python `str.lower`, ASCII-accurate (every claim input is ASCII);
written as a list map so that it reduces definitionally. -/
def strLower (s : String) : String := String.mk (s.data.map Char.toLower)

/-- Model of `df.rename(columns={old: new})`. -/
def renameCol (df : DF) (old new : String) : DF :=
  { cols := df.cols.map (fun c => if c = old then new else c)
    rows := df.rows.map (fun r =>
      r.map (fun kv => if kv.1 = old then (new, kv.2) else kv)) }

/-- Model of `df[c] = None`: appends a column holding `None` in every row. -/
def addNoneCol (df : DF) (c : String) : DF :=
  { cols := df.cols ++ [c]
    rows := df.rows.map (fun r => r ++ [(c, PyVal.none)]) }

/-- Required columns, in the order the source iterates them. -/
def requiredCols : List String := ["Name", "Artist", "Playlist", "Year", "songlength"]

/-- One iteration of the required-column loop: if `col` is absent, first
try a case-insensitive rename of an existing column, else append the
column as `None` and record it as missing.  Accumulator carries the
frame, the warnings so far, and `missing_cols`. -/
def ensureCol (acc : DF × List Warn × List String) (col : String) :
    DF × List Warn × List String :=
  let (df, ws, miss) := acc
  if col ∈ df.cols then (df, ws, miss)
  else
    match df.cols.find? (fun e => strLower e = strLower col) with
    | Option.some e => (renameCol df e col, ws ++ [Warn.renamed e col], miss)
    | Option.none => (addNoneCol df col, ws, miss ++ [col])

/-- Required-column normalization loop plus the trailing
`missing_cols` warning. -/
def ensureRequiredCols (df : DF) : DF × List Warn :=
  let res := requiredCols.foldl ensureCol (df, [], [])
  (res.1, res.2.1 ++ if res.2.2 = [] then [] else [Warn.missingCols res.2.2])

/-- Prefix of a string before its first backslash:
`s.split('\\')[0]` (splitting never yields an empty list, so the `[0]`
access is total). -/
def prefixBeforeBackslash (s : String) : String :=
  String.mk (s.data.takeWhile (fun c => c ≠ '\\'))

/-- Playlist-cell normalization: `astype(str)` then
`.str.split('\\').str[0]` then `.replace('nan', None)`.  The `replace`
matches entire cell values; it is modelled with its value-replacement
semantics (the pre-2.x pad-fill meaning of a `None` value is deprecated
and removed in current pandas). -/
def processPlaylistCell (c : PyVal) : PyVal :=
  let s := prefixBeforeBackslash (pyStr c)
  if s = "nan" then PyVal.none else PyVal.str s

/-- Model of elementwise assignment `df[c] = f(df[c])`. -/
def mapCol (df : DF) (c : String) (f : PyVal → PyVal) : DF :=
  { cols := df.cols
    rows := df.rows.map (fun r =>
      r.map (fun kv => if kv.1 = c then (c, f kv.2) else kv)) }

/-- Playlist-column processing block: runs only when the column exists
and some value is non-null; the `elif` adds a `None` column when the
column is missing entirely (unreachable after `ensureRequiredCols`, kept
for fidelity); an all-null existing column is left untouched. -/
def processPlaylist (df : DF) : DF × List Warn :=
  if "Playlist" ∈ df.cols ∧ df.rows.any (fun r => notna (getCell r "Playlist")) then
    (mapCol df "Playlist" processPlaylistCell, [])
  else if "Playlist" ∉ df.cols then
    (addNoneCol df "Playlist", [Warn.playlistMissing])
  else (df, [])

/-- Elementwise `==` of a cell against a Python string: only an equal
string compares true; `None`, `nan`, numbers, lists and dicts are all
`False` under Python equality with a string. -/
def cellEqStr (c : PyVal) (s : String) : Bool :=
  match c with
  | .str t => t = s
  | _ => false

/-- Fixed target playlist of the final filter. -/
def targetPlaylist : String := "guitar hero 3"

/-- Model of `df = df[df["Playlist"] == "guitar hero 3"]`. -/
def filterPlaylist (df : DF) : DF :=
  { cols := df.cols
    rows := df.rows.filter (fun r => cellEqStr (getCell r "Playlist") targetPlaylist) }

/-- Normalization pipeline applied to the dict elements: DataFrame
construction, required-column normalization, playlist processing, and
the fixed playlist filter. -/
def normalizeRecords (dicts : List PyVal) : DF × List Warn :=
  let df := mkDataFrame dicts
  let res2 := ensureRequiredCols df
  let res3 := processPlaylist res2.1
  (filterPlaylist res3.1, res2.2 ++ res3.2)

/-- Model of `load_song_data` from the parsed JSON value onward: a
non-list top level is a fatal error (`st.error`, return `None`);
non-dict elements are dropped with a warning; the dict elements are
normalized and the playlist-filtered frame is returned. -/
def loadSongData (j : PyVal) : LoadResult :=
  match j with
  | .list items =>
      let dicts := items.filter PyVal.isDict
      let w0 : List Warn :=
        if items.all PyVal.isDict then [] else [Warn.nonDictItems]
      let res := normalizeRecords dicts
      .success res.1 (w0 ++ res.2)
  | _ => .failure .schemaError

/-- Two-digit zero-padded rendering `f"{n:02}"`: pads to width 2, never
truncates a value of three or more digits. -/
def pad2 (n : Nat) : String := if n < 10 then "0" ++ toString n else toString n

/-- MM:SS rendering from a whole number of seconds. -/
def fmtMMSS (ts : Nat) : String := pad2 (ts / 60) ++ ":" ++ pad2 (ts % 60)

/-- Model of `format_songlength`.  `None` and every non-`int`/`float`
value fail the `isinstance` guard and return `"N/A"`, as does a negative
number.  For a non-negative number, `int(float(ms) / 1000)` is exact
rational division floored (exact for all claim-relevant magnitudes).
`bool` is an `int` subclass in Python (`True` → 1).  Float `nan` passes
the guard, is not `< 0`, and `int(nan)` raises `ValueError`, caught as
`"Invalid"`.  The generic `"Error"` fallback is reachable only for
infinities (`OverflowError`), which lie outside the modelled value
domain. -/
def format_songlength : PyVal → String
  | .none => "N/A"
  | .str _ => "N/A"
  | .list _ => "N/A"
  | .dict _ => "N/A"
  | .bool b => fmtMMSS ((if b then 1 else 0) / 1000)
  | .int n => if n < 0 then "N/A" else fmtMMSS (n.toNat / 1000)
  | .float q => if q < 0 then "N/A" else fmtMMSS (⌊q / 1000⌋.toNat)
  | .nan => "Invalid"

/-!
The filter block calls `Series.str.contains(query, case=False, na=False)`
with its default `regex=True`: the query is compiled by `re.compile` and
matched with `re.search` semantics.  The subset of Python `re` syntax
modelled here is: literal characters, `.`, grouping `( )`, alternation
`|`, and a single quantifier `*` `+` `?` after an atom.  The characters
`[ ] { } ^ $ \` and stacked quantifiers are rejected by the modelled
compiler; every claim input stays inside the subset.  `case=False`
(re.IGNORECASE) is modelled by lowering both the pattern's literal
characters and the text, equivalent for ASCII.  As in Python without
`re.DOTALL`, `.` matches every character except a newline.
-/

/-- Regular-expression AST of the modelled `re` subset. -/
inductive Re where
  | empty
  | eps
  | char (c : Char)
  | anyChar
  | seq (a b : Re)
  | alt (a b : Re)
  | star (a : Re)

/-- Whether the pattern matches the empty string. -/
def nullable : Re → Bool
  | .empty => false
  | .eps => true
  | .char _ => false
  | .anyChar => false
  | .seq a b => nullable a && nullable b
  | .alt a b => nullable a || nullable b
  | .star _ => true

/-- Brzozowski derivative of the pattern by one character. -/
def reDeriv : Re → Char → Re
  | .empty, _ => .empty
  | .eps, _ => .empty
  | .char c, d => if c = d then .eps else .empty
  | .anyChar, d => if d = '\n' then .empty else .eps
  | .seq a b, d =>
      if nullable a then .alt (.seq (reDeriv a d) b) (reDeriv b d)
      else .seq (reDeriv a d) b
  | .alt a b, d => .alt (reDeriv a d) (reDeriv b d)
  | .star a, d => .seq (reDeriv a d) (.star a)

/-- Whether the pattern matches some prefix of the character list. -/
def matchSomeStart (r : Re) : List Char → Bool
  | [] => nullable r
  | c :: cs => nullable r || matchSomeStart (reDeriv r c) cs

/-- `re.search` semantics: whether the pattern matches a contiguous
slice of the character list starting at any position. -/
def searchRe (r : Re) : List Char → Bool
  | [] => nullable r
  | c :: cs => matchSomeStart r (c :: cs) || searchRe r cs

/-- Quantifier characters of the modelled subset. -/
def isQuant (c : Char) : Bool := c = '*' || c = '+' || c = '?'

/-- Metacharacters of Python `re` outside the modelled subset. -/
def isUnsupported (c : Char) : Bool :=
  c = '[' || c = ']' || c = '\x7b' || c = '\x7d' || c = '^' || c = '$' || c = '\\'

/-- Application of a quantifier character to an atom. -/
def applyQuant (a : Re) (c : Char) : Re :=
  if c = '*' then .star a
  else if c = '+' then .seq a (.star a)
  else .alt a .eps

/-- Optional single quantifier after an atom; a second quantifier
immediately following is `re.error("multiple repeat")`. -/
def quantify (a : Re) (cs : List Char) : Except String (Re × List Char) :=
  match cs with
  | [] => .ok (a, [])
  | c :: rest =>
    if isQuant c then
      match rest with
      | c2 :: _ =>
          if isQuant c2 then .error "multiple repeat"
          else .ok (applyQuant a c, rest)
      | [] => .ok (applyQuant a c, [])
    else .ok (a, cs)

mutual

/-- Alternation level of the pattern grammar: `seq ('|' seq)*`. -/
def parseAlt (fuel : Nat) (cs : List Char) : Except String (Re × List Char) :=
  match fuel with
  | 0 => .error "fuel exhausted"
  | fuel + 1 =>
    match parseSeq fuel cs with
    | .error e => .error e
    | .ok (r, rest) =>
      match rest with
      | '|' :: rest2 =>
        match parseAlt fuel rest2 with
        | .error e => .error e
        | .ok (r2, rest3) => .ok (.alt r r2, rest3)
      | _ => .ok (r, rest)

/-- Concatenation level: a sequence of quantified atoms, possibly empty. -/
def parseSeq (fuel : Nat) (cs : List Char) : Except String (Re × List Char) :=
  match fuel with
  | 0 => .error "fuel exhausted"
  | fuel + 1 =>
    match parseAtom fuel cs with
    | .error e => .error e
    | .ok Option.none => .ok (.eps, cs)
    | .ok (Option.some (a, rest)) =>
      match quantify a rest with
      | .error e => .error e
      | .ok (a2, rest2) =>
        match parseSeq fuel rest2 with
        | .error e => .error e
        | .ok (r, rest3) => .ok (.seq a2 r, rest3)

/-- One atom: a literal, `.`, or a parenthesised group; `none` when the
next character ends the sequence.  A quantifier with nothing before it
is `re.error("nothing to repeat")`; an unclosed group is
`re.error("missing ), unterminated subpattern")`. -/
def parseAtom (fuel : Nat) (cs : List Char) :
    Except String (Option (Re × List Char)) :=
  match fuel with
  | 0 => .error "fuel exhausted"
  | fuel + 1 =>
    match cs with
    | [] => .ok Option.none
    | c :: rest =>
      if c = ')' ∨ c = '|' then .ok Option.none
      else if c = '(' then
        match parseAlt fuel rest with
        | .error e => .error e
        | .ok (r, rest2) =>
          match rest2 with
          | ')' :: rest3 => .ok (Option.some (r, rest3))
          | _ => .error "missing ), unterminated subpattern"
      else if isQuant c then .error "nothing to repeat"
      else if isUnsupported c then .error "unsupported metacharacter"
      else if c = '.' then .ok (Option.some (.anyChar, rest))
      else .ok (Option.some (.char c, rest))

end

/-- Model of `re.compile(query, re.IGNORECASE)` on the modelled subset:
the pattern is lowered (equivalent to IGNORECASE for ASCII) and parsed;
a malformed pattern is an `re.error`.  Leftover input after the top
alternation can only be an unmatched `)`. -/
def parsePattern (q : String) : Except String Re :=
  let cs := (strLower q).data
  match parseAlt (3 * cs.length + 3) cs with
  | .error e => .error e
  | .ok (r, []) => .ok r
  | .ok (_, _ :: _) => .error "unbalanced parenthesis"

/-- Whether a row's cell in column `col`, coerced by `astype(str)` and
lowered, contains a match of the compiled pattern. -/
def rowMatches (r : Re) (col : String) (row : Row) : Bool :=
  searchRe r (strLower (pyStr (getCell row col))).data

/-- Model of `df[df[col].astype(str).str.contains(query, case=False,
na=False)]`: compile the query (propagating `re.error` on a malformed
pattern), coerce each cell to a string, keep the rows where the pattern
matches anywhere.  After `astype(str)` no NA cells remain, so `na=False`
never applies. -/
def strContainsFilter (df : DF) (col : String) (query : String) :
    Except String DF :=
  match parsePattern query with
  | .error e => .error e
  | .ok r =>
      .ok { cols := df.cols, rows := df.rows.filter (rowMatches r col) }

/-- Model of the filter block (`src/app.py` lines 120-135): start from a
copy of the frame, apply the Name filter when `search_name` is non-empty
(Python truthiness) and the column exists, then the Artist filter
likewise; a missing column only warns and skips that filter.  An
uncaught `re.error` from a malformed query propagates as `.error`. -/
def applyFilters (df : DF) (searchName searchArtist : String) :
    Except String DF :=
  let step1 : Except String DF :=
    if searchName = "" then .ok df
    else if "Name" ∈ df.cols then strContainsFilter df "Name" searchName
    else .ok df
  match step1 with
  | .error e => .error e
  | .ok df1 =>
    if searchArtist = "" then .ok df1
    else if "Artist" ∈ df1.cols then strContainsFilter df1 "Artist" searchArtist
    else .ok df1

/-- Spec-side predicate, written from the claim wording and not from the
source: `hay` starts with `needle`. -/
def startsWithChars : List Char → List Char → Bool
  | _, [] => true
  | [], _ :: _ => false
  | c :: cs, d :: ds => c = d && startsWithChars cs ds

/-- Spec-side predicate: `needle` occurs as a contiguous sublist of
`hay`. -/
def containsSubChars : List Char → List Char → Bool
  | [], needle => startsWithChars [] needle
  | c :: cs, needle => startsWithChars (c :: cs) needle || containsSubChars cs needle

/-- Spec-side predicate (from the claim wording): `hay` contains
`needle` as a case-insensitive plain substring. -/
def containsSubstrCI (hay needle : String) : Bool :=
  containsSubChars (strLower hay).data (strLower needle).data

/-- Python `isinstance(v, list)`. -/
def PyVal.isList : PyVal → Bool
  | .list _ => true
  | _ => false

/-- Rows carried by a loader outcome: a failure returns `None` to the
caller and yields no rows. -/
def LoadResult.resultRows : LoadResult → List Row
  | .failure _ => []
  | .success df _ => df.rows

/-- Compiled pattern of a query, for naming the result of a successful
`parsePattern` in concrete statements. -/
def patOrEmpty (q : String) : Re :=
  match parsePattern q with
  | .ok r => r
  | .error _ => .empty

/-- Spec-side predicate (from the claim wording): the string fully
matches `\d\x7b2\x7d:\d\x7b2\x7d`, i.e. is exactly two digits, a colon,
and two digits. -/
def isMMSSPattern (s : String) : Bool :=
  match s.data with
  | [a, b, c, d, e] => a.isDigit && b.isDigit && c = ':' && d.isDigit && e.isDigit
  | _ => false

/-- Elementwise string equality against a cell holds only for an equal
string cell. -/
theorem cellEqStr_eq {c : PyVal} {s : String} (h : cellEqStr c s = true) :
    c = PyVal.str s := by
  cases c <;> simp_all [cellEqStr]

/-- Rows surviving the playlist filter carry the target playlist tag. -/
theorem mem_filterPlaylist {r : Row} {df : DF} (hr : r ∈ (filterPlaylist df).rows) :
    getCell r "Playlist" = PyVal.str targetPlaylist := by
  simp only [filterPlaylist, List.mem_filter] at hr
  exact cellEqStr_eq hr.2

/-- Every row of a successfully loaded frame carries the target playlist
tag: the final step of `load_song_data` filters on equality with it. -/
theorem load_rows_playlist {j : PyVal} {df : DF} {ws : List Warn}
    (h : loadSongData j = .success df ws) :
    ∀ r ∈ df.rows, getCell r "Playlist" = PyVal.str targetPlaylist := by
  intro r hr
  cases j with
  | list items =>
      simp only [loadSongData, LoadResult.success.injEq] at h
      obtain ⟨h1, -⟩ := h
      subst h1
      exact mem_filterPlaylist hr
  | none => simp [loadSongData] at h
  | nan => simp [loadSongData] at h
  | bool b => simp [loadSongData] at h
  | int n => simp [loadSongData] at h
  | float q => simp [loadSongData] at h
  | str s => simp [loadSongData] at h
  | dict kvs => simp [loadSongData] at h

/-- Example input: one record whose raw playlist is
`guitar hero 3\bonus`. -/
def jBonus : PyVal :=
  .list [.dict [("Playlist", .str "guitar hero 3\\bonus"), ("Name", .str "x")]]

/-- Normalized row the loader produces for `jBonus`. -/
def rowBonus : Row :=
  [("Playlist", .str "guitar hero 3"), ("Name", .str "x"),
   ("Artist", PyVal.none), ("Year", PyVal.none), ("songlength", PyVal.none)]

/-- Frame the loader produces for `jBonus`. -/
def dfBonus : DF :=
  { cols := ["Playlist", "Name", "Artist", "Year", "songlength"]
    rows := [rowBonus] }

/-- Warnings the loader produces for `jBonus`. -/
def wsBonus : List Warn := [Warn.missingCols ["Artist", "Year", "songlength"]]

/-- Example input: one record belonging to a different playlist. -/
def jRock : PyVal :=
  .list [.dict [("Playlist", .str "rock band"), ("Name", .str "x")]]

/-- C4: every record in the normalized dataset returned by the loader
has playlist tag exactly `"guitar hero 3"` (case-sensitive); a record
with raw playlist `guitar hero 3\bonus` is retained with the tag cut at
the first backslash, and a record with raw playlist `"rock band"` is
excluded. -/
theorem load_only_target_playlist :
    (∀ (j : PyVal) (df : DF) (ws : List Warn), loadSongData j = .success df ws →
      ∀ r ∈ df.rows, getCell r "Playlist" = PyVal.str "guitar hero 3") ∧
    (loadSongData jBonus).resultRows = [rowBonus] ∧
    (loadSongData jRock).resultRows = [] := by
  refine ⟨?_, rfl, rfl⟩
  intro j df ws h
  simpa [targetPlaylist] using load_rows_playlist h

/-- Witness for C4 at the concrete `jBonus` input. -/
theorem load_only_target_playlist_witness :
    getCell rowBonus "Playlist" = PyVal.str "guitar hero 3" :=
  load_only_target_playlist.1 jBonus dfBonus wsBonus rfl rowBonus (List.Mem.head _)

/-- C6: a valid-JSON input whose top-level value is not an array fails
with the schema error, and a failure outcome carries zero rows (no
best-effort data). -/
theorem load_nonlist_fails_schema :
    (∀ j : PyVal, j.isList = false → loadSongData j = .failure .schemaError) ∧
    loadSongData (.dict [("a", .int 1)]) = .failure .schemaError ∧
    (∀ e : LoadError, (LoadResult.failure e).resultRows = []) := by
  refine ⟨?_, rfl, fun _ => rfl⟩
  intro j h
  cases j <;> simp_all [loadSongData, PyVal.isList]

/-- Witness for C6 at the concrete non-array input `{"a": 1}`. -/
theorem load_nonlist_fails_schema_witness :
    loadSongData (.dict [("a", .int 1)]) = .failure .schemaError :=
  load_nonlist_fails_schema.1 (.dict [("a", .int 1)]) rfl

/-- C7: an array containing non-object elements loads successfully: the
non-dict elements are discarded, the dataset is exactly the one obtained
from the dict elements, and the non-fatal warning is recorded first. -/
theorem load_skips_non_dict_items (items : List PyVal)
    (h : items.all PyVal.isDict = false) :
    loadSongData (.list items) =
      .success (normalizeRecords (items.filter PyVal.isDict)).1
        (Warn.nonDictItems :: (normalizeRecords (items.filter PyVal.isDict)).2) := by
  simp [loadSongData, h]

/-- Witness for C7: a bare string alongside one valid record. -/
theorem load_skips_non_dict_items_witness :
    loadSongData (.list [.str "bogus", .dict [("Name", .str "x")]]) =
      .success
        (normalizeRecords
          (([PyVal.str "bogus", PyVal.dict [("Name", PyVal.str "x")]]).filter
            PyVal.isDict)).1
        (Warn.nonDictItems ::
          (normalizeRecords
            (([PyVal.str "bogus", PyVal.dict [("Name", PyVal.str "x")]]).filter
              PyVal.isDict)).2) :=
  load_skips_non_dict_items [.str "bogus", .dict [("Name", .str "x")]] rfl

/-- C8: with both queries empty, the filter block returns the frame
unchanged (the empty query is the identity constraint). -/
theorem filter_empty_queries_identity (df : DF) :
    applyFilters df "" "" = .ok df := by
  simp [applyFilters]

/-- C10: a playlist whose derived prefix before the first backslash is
literally `"nan"` is normalized to `None` by the `replace` step, exactly
as a missing playlist cell (`nan`, string-coerced to `"nan"`) is, and
such a record is excluded from the normalized dataset rather than kept
with tag `"nan"`. -/
theorem playlist_nan_prefix_null :
    (∀ c : PyVal, prefixBeforeBackslash (pyStr c) = "nan" →
      processPlaylistCell c = PyVal.none) ∧
    processPlaylistCell PyVal.nan = PyVal.none ∧
    (loadSongData
        (.list [.dict [("Playlist", .str "nan"), ("Name", .str "x")]])).resultRows =
      [] := by
  refine ⟨?_, rfl, rfl⟩
  intro c h
  simp [processPlaylistCell, h]

/-- Witness for C10 at the concrete playlist string `"nan"`. -/
theorem playlist_nan_prefix_null_witness :
    processPlaylistCell (PyVal.str "nan") = PyVal.none :=
  playlist_nan_prefix_null.1 (PyVal.str "nan") rfl

/-- C2 counterexample: `format_songlength("abc")` returns `"N/A"`, not
`"Invalid"` — the `isinstance` guard fires before any conversion is
attempted. -/
theorem format_abc_counterexample :
    format_songlength (PyVal.str "abc") = "N/A" ∧ "N/A" ≠ "Invalid" :=
  ⟨rfl, by decide⟩

/-- C2 (amended): `format_songlength` returns `"N/A"` for `None`, for a
negative number, and for every string (malformed strings included,
because the `isinstance(int, float)` type guard precedes numeric
conversion); the distinct sentinel `"Invalid"` is returned when integer
conversion of a numeric value fails, which happens for float `nan`. -/
theorem format_duration_sentinels :
    format_songlength PyVal.none = "N/A" ∧
    format_songlength (PyVal.int (-5)) = "N/A" ∧
    (∀ s : String, format_songlength (PyVal.str s) = "N/A") ∧
    format_songlength PyVal.nan = "Invalid" :=
  ⟨rfl, rfl, fun _ => rfl, rfl⟩

/-- Two-character all-digit strings, used to state the MM:SS shape. -/
def isDigit2 (s : String) : Bool :=
  match s.data with
  | [a, b] => a.isDigit && b.isDigit
  | _ => false

/-- Zero-padding a number below 100 yields exactly two digit characters. -/
theorem isDigit2_pad2 : ∀ m : Nat, m < 100 → isDigit2 (pad2 m) = true := by decide

/-- Structure of a two-digit string. -/
theorem isDigit2_elim {s : String} (h : isDigit2 s = true) :
    ∃ a b, s.data = [a, b] ∧ a.isDigit = true ∧ b.isDigit = true := by
  unfold isDigit2 at h
  split at h
  · next a b heq =>
      rw [Bool.and_eq_true] at h
      exact ⟨a, b, heq, h.1, h.2⟩
  · simp at h

/-- Gluing two two-digit chunks around a colon yields the MM:SS shape. -/
theorem isMMSS_append {x y : String} (hx : isDigit2 x = true)
    (hy : isDigit2 y = true) : isMMSSPattern (x ++ ":" ++ y) = true := by
  obtain ⟨a, b, hab, ha, hb⟩ := isDigit2_elim hx
  obtain ⟨c, d, hcd, hc, hd⟩ := isDigit2_elim hy
  have hcolon : (":" : String).data = [':'] := rfl
  simp [isMMSSPattern, String.data_append, hab, hcd, hcolon, ha, hb, hc, hd]

/-- Below 6000 total seconds (100 minutes), the rendered string has the
MM:SS two-digit shape. -/
theorem isMMSS_fmtMMSS {ts : Nat} (h : ts < 6000) :
    isMMSSPattern (fmtMMSS ts) = true := by
  unfold fmtMMSS
  apply isMMSS_append
  · exact isDigit2_pad2 _ (Nat.div_lt_of_lt_mul (by omega))
  · exact isDigit2_pad2 _ (lt_trans (Nat.mod_lt _ (by decide)) (by decide))

/-- C5 counterexample: at 6000000 ms (100 minutes) the rendered string
is `"100:00"`, which does not match `\d\x7b2\x7d:\d\x7b2\x7d`. -/
theorem format_hundred_minutes_counterexample :
    format_songlength (PyVal.int 6000000) = "100:00" ∧
    isMMSSPattern "100:00" = false :=
  ⟨rfl, rfl⟩

/-- C5 (amended): for every non-negative integer millisecond value the
formatter computes by integer division (`minutes = floor(ms/1000) div
60`, `seconds = floor(ms/1000) mod 60`, zero-padded, no rounding); the
result matches `\d\x7b2\x7d:\d\x7b2\x7d` whenever the duration is below
100 minutes (6000000 ms) — beyond that the minute field has three or
more digits — and likewise for every non-negative float below 100
minutes; in particular `65000 ↦ "01:05"`, `0 ↦ "00:00"`,
`3599000 ↦ "59:59"`. -/
theorem format_duration_division_and_pattern (n : Int) (h0 : 0 ≤ n) :
    format_songlength (.int n) =
        pad2 (n.toNat / 1000 / 60) ++ ":" ++ pad2 (n.toNat / 1000 % 60) ∧
    (n < 6000000 → isMMSSPattern (format_songlength (.int n)) = true) ∧
    (∀ q : Rat, 0 ≤ q → q < 6000000 →
        isMMSSPattern (format_songlength (.float q)) = true) ∧
    format_songlength (.int 65000) = "01:05" ∧
    format_songlength (.int 0) = "00:00" ∧
    format_songlength (.int 3599000) = "59:59" := by
  have hne : ¬ n < 0 := not_lt.mpr h0
  have hfmt : format_songlength (.int n) = fmtMMSS (n.toNat / 1000) := by
    simp [format_songlength, hne]
  refine ⟨by rw [hfmt]; rfl, ?_, ?_, rfl, rfl, rfl⟩
  · intro hlt
    rw [hfmt]
    exact isMMSS_fmtMMSS (Nat.div_lt_of_lt_mul (by omega))
  · intro q hq0 hqlt
    have hqne : ¬ q < 0 := not_lt.mpr hq0
    have hfl : ⌊q / 1000⌋ < 6000 := by
      rw [Int.floor_lt]
      rw [div_lt_iff₀ (by norm_num : (0:ℚ) < 1000)]
      push_cast
      linarith
    have hts : (⌊q / 1000⌋).toNat < 6000 := by omega
    simp only [format_songlength, if_neg hqne]
    exact isMMSS_fmtMMSS hts

/-- Witness for C5 at the concrete input 65000 ms. -/
theorem format_duration_division_and_pattern_witness :
    isMMSSPattern (format_songlength (.int 65000)) = true :=
  (format_duration_division_and_pattern 65000 (by decide)).2.1 (by decide)

/-- Unfolding of the single-column contains-filter on a valid pattern. -/
theorem strContainsFilter_ok {df : DF} {col q : String} {r : Re}
    (h : parsePattern q = .ok r) :
    strContainsFilter df col q =
      .ok { cols := df.cols, rows := df.rows.filter (rowMatches r col) } := by
  simp [strContainsFilter, h]

/-- Unfolding of the filter block with only the name query active. -/
theorem applyFilters_name_only {df : DF} {nq : String} {rn : Re}
    (hn : parsePattern nq = .ok rn) (hnq : nq ≠ "") (hN : "Name" ∈ df.cols) :
    applyFilters df nq "" =
      .ok { cols := df.cols, rows := df.rows.filter (rowMatches rn "Name") } := by
  simp [applyFilters, hnq, hN, strContainsFilter_ok hn]

/-- Example frame with a record named `"abc"`. -/
def dfMeta : DF :=
  { cols := ["Name", "Artist"]
    rows := [[("Name", PyVal.str "abc"), ("Artist", PyVal.str "z")]] }

/-- C1 counterexample: with the query `"a.c"` the filter retains the
record named `"abc"` — under `str.contains`'s default `regex=True` the
dot is a wildcard — although `"a.c"` is not a case-insensitive substring
of `"abc"`, so the filter does not retain exactly the substring matches. -/
theorem filter_regex_metachar_counterexample :
    applyFilters dfMeta "a.c" "" = .ok dfMeta ∧
    containsSubstrCI "abc" "a.c" = false :=
  ⟨rfl, rfl⟩

/-- Characters of the modelled `re` subset that stand only for
themselves: not a quantifier, not an unsupported metacharacter, and not
`.`, `(`, `)` or `|`. -/
def isLiteralChar (c : Char) : Bool :=
  !isQuant c && !isUnsupported c && !(c == '.') && !(c == '(') &&
    !(c == ')') && !(c == '|')

/-- Pattern matching a fixed character list literally. -/
def litRe : List Char → Re
  | [] => .eps
  | c :: cs => .seq (.char c) (litRe cs)

/-- Unpacking of `isLiteralChar`. -/
theorem literal_char_facts {c : Char} (h : isLiteralChar c = true) :
    isQuant c = false ∧ isUnsupported c = false ∧
      c ≠ '.' ∧ c ≠ '(' ∧ c ≠ ')' ∧ c ≠ '|' := by
  simp only [isLiteralChar, Bool.and_eq_true, Bool.not_eq_true',
    beq_eq_false_iff_ne] at h
  tauto

/-- The concatenation level parses a fully literal input to the literal
pattern, consuming all of it, given enough fuel. -/
theorem parseSeq_literal :
    ∀ (cs : List Char) (fuel : Nat), cs.all isLiteralChar = true →
      cs.length + 2 ≤ fuel → parseSeq fuel cs = .ok (litRe cs, []) := by
  intro cs
  induction cs with
  | nil =>
      intro fuel _ hf
      obtain ⟨f, rfl⟩ : ∃ f, fuel = f + 2 := ⟨fuel - 2, by omega⟩
      simp [parseSeq, parseAtom, litRe]
  | cons c cs ih =>
      intro fuel hlit hf
      simp only [List.all_cons, Bool.and_eq_true] at hlit
      obtain ⟨hc, hcs⟩ := hlit
      obtain ⟨hq, hu, hdot, hlp, hrp, hbar⟩ := literal_char_facts hc
      obtain ⟨f, rfl⟩ : ∃ f, fuel = f + 2 := ⟨fuel - 2, by omega⟩
      have hatom : parseAtom (f + 1) (c :: cs) =
          .ok (Option.some (.char c, cs)) := by
        simp [parseAtom, hq, hu, hdot, hlp, hrp, hbar]
      have hquant : quantify (.char c) cs = .ok (.char c, cs) := by
        cases cs with
        | nil => rfl
        | cons c2 rest =>
            simp only [List.all_cons, Bool.and_eq_true] at hcs
            simp [quantify, (literal_char_facts hcs.1).1]
      have hrec : parseSeq (f + 1) cs = .ok (litRe cs, []) := by
        refine ih (f + 1) hcs ?_
        simp only [List.length_cons] at hf
        omega
      conv_lhs => rw [parseSeq.eq_def]
      simp only [hatom, hquant, hrec, litRe]

/-- The alternation level likewise: a literal input has no bar, so the
sequence result is returned as is. -/
theorem parseAlt_literal (cs : List Char) (fuel : Nat)
    (hlit : cs.all isLiteralChar = true) (hf : cs.length + 3 ≤ fuel) :
    parseAlt fuel cs = .ok (litRe cs, []) := by
  obtain ⟨f, rfl⟩ : ∃ f, fuel = f + 1 := ⟨fuel - 1, by omega⟩
  simp [parseAlt, parseSeq_literal cs f hlit (by omega)]

/-- A query built solely of literal characters compiles to the literal
pattern of its (lowered) characters. -/
theorem parsePattern_literal {q : String}
    (h : (strLower q).data.all isLiteralChar = true) :
    parsePattern q = .ok (litRe (strLower q).data) := by
  have hp := parseAlt_literal (strLower q).data
    (3 * (strLower q).data.length + 3) h (by omega)
  unfold parsePattern
  simp only [hp]

/-- `Char.toLower` maps literal characters to literal characters: it
changes only `A`-`Z`, and lowercase letters are literal. -/
theorem isLiteralChar_toLower {c : Char} (h : isLiteralChar c = true) :
    isLiteralChar c.toLower = true := by
  show isLiteralChar
    (if c.toNat ≥ 65 ∧ c.toNat ≤ 90 then Char.ofNat (c.toNat + 32) else c) = true
  split
  · next hb =>
      obtain ⟨h1, h2⟩ := hb
      generalize c.toNat = n at h1 h2 ⊢
      interval_cases n <;> decide
  · exact h

/-- Lowering a fully literal query keeps it fully literal. -/
theorem strLower_all_literal {q : String}
    (h : q.data.all isLiteralChar = true) :
    (strLower q).data.all isLiteralChar = true := by
  rw [show (strLower q).data = q.data.map Char.toLower from rfl,
    List.all_eq_true]
  intro c hc
  rw [List.mem_map] at hc
  obtain ⟨d, hd, rfl⟩ := hc
  rw [List.all_eq_true] at h
  exact isLiteralChar_toLower (h d hd)

/-- The empty language matches no prefix. -/
theorem matchSomeStart_empty (t : List Char) :
    matchSomeStart .empty t = false := by
  induction t with
  | nil => rfl
  | cons c t ih => simp [matchSomeStart, reDeriv, nullable, ih]

/-- Prefix matching distributes over alternation. -/
theorem matchSomeStart_alt (a b : Re) (t : List Char) :
    matchSomeStart (.alt a b) t =
      (matchSomeStart a t || matchSomeStart b t) := by
  induction t generalizing a b with
  | nil => rfl
  | cons c t ih =>
      simp only [matchSomeStart, reDeriv, nullable, ih]
      simp [Bool.or_assoc, Bool.or_comm, Bool.or_left_comm]

/-- A sequence headed by the empty language matches no prefix. -/
theorem matchSomeStart_seq_empty (r : Re) (t : List Char) :
    matchSomeStart (.seq .empty r) t = false := by
  induction t generalizing r with
  | nil => rfl
  | cons c t ih => simp [matchSomeStart, reDeriv, nullable, ih]

/-- A leading epsilon in a sequence is inert for prefix matching. -/
theorem matchSomeStart_seq_eps (r : Re) (t : List Char) :
    matchSomeStart (.seq .eps r) t = matchSomeStart r t := by
  cases t with
  | nil => simp [matchSomeStart, nullable]
  | cons c t =>
      simp [matchSomeStart, reDeriv, nullable, matchSomeStart_alt,
        matchSomeStart_seq_empty]

/-- Prefix matching of a literal pattern is exactly `startsWithChars`. -/
theorem matchSomeStart_litRe :
    ∀ (needle hay : List Char),
      matchSomeStart (litRe needle) hay = startsWithChars hay needle := by
  intro needle
  induction needle with
  | nil =>
      intro hay
      cases hay <;> simp [litRe, matchSomeStart, nullable, startsWithChars]
  | cons d ds ih =>
      intro hay
      cases hay with
      | nil => simp [litRe, matchSomeStart, nullable, startsWithChars]
      | cons h t =>
          by_cases hdh : d = h
          · subst hdh
            simp [litRe, matchSomeStart, nullable, reDeriv, startsWithChars,
              matchSomeStart_seq_eps, ih]
          · have hne : ¬ h = d := fun hh => hdh hh.symm
            simp [litRe, matchSomeStart, nullable, reDeriv, hdh, hne,
              startsWithChars, matchSomeStart_seq_empty]

/-- `re.search` of a literal pattern is exactly contiguous-substring
containment. -/
theorem searchRe_litRe :
    ∀ (hay needle : List Char),
      searchRe (litRe needle) hay = containsSubChars hay needle := by
  intro hay
  induction hay with
  | nil =>
      intro needle
      cases needle <;>
        simp [searchRe, litRe, nullable, containsSubChars, startsWithChars]
  | cons h t ih =>
      intro needle
      simp [searchRe, containsSubChars, matchSomeStart_litRe, ih]

/-- C1 (amended): for a non-empty name query that compiles as a regular
expression and an empty artist query, the filter retains exactly the
records whose string-coerced name matches the query as a
case-insensitive regular expression; when both queries are non-empty
and valid, a record survives iff it satisfies both the name and the
artist regex conditions (conjunction); and for queries built only of
regex-literal characters the regex condition coincides with
case-insensitive substring containment. -/
theorem filter_conjunctive_regex_match :
    (∀ (df : DF) (nq : String) (rn : Re), parsePattern nq = .ok rn →
      nq ≠ "" → "Name" ∈ df.cols →
      ∃ dfOut, applyFilters df nq "" = .ok dfOut ∧ dfOut.cols = df.cols ∧
        ∀ r : Row, r ∈ dfOut.rows ↔
          r ∈ df.rows ∧ rowMatches rn "Name" r = true) ∧
    (∀ (df : DF) (nq aq : String) (rn ra : Re),
      parsePattern nq = .ok rn → parsePattern aq = .ok ra →
      nq ≠ "" → aq ≠ "" → "Name" ∈ df.cols → "Artist" ∈ df.cols →
      ∃ dfOut, applyFilters df nq aq = .ok dfOut ∧ dfOut.cols = df.cols ∧
        ∀ r : Row, r ∈ dfOut.rows ↔
          r ∈ df.rows ∧ rowMatches rn "Name" r = true ∧
            rowMatches ra "Artist" r = true) ∧
    (∀ q : String, q.data.all isLiteralChar = true →
      ∃ rq, parsePattern q = .ok rq ∧
        ∀ (col : String) (row : Row),
          rowMatches rq col row =
            containsSubstrCI (pyStr (getCell row col)) q) := by
  refine ⟨?_, ?_, ?_⟩
  · intro df nq rn hn hnq hN
    refine ⟨_, applyFilters_name_only hn hnq hN, rfl, ?_⟩
    intro r
    simp [List.mem_filter]
  · intro df nq aq rn ra hn ha hnq haq hN hA
    refine ⟨{ cols := df.cols
              rows := (df.rows.filter (rowMatches rn "Name")).filter
                (rowMatches ra "Artist") }, ?_, rfl, ?_⟩
    · simp [applyFilters, hnq, haq, hN, hA, strContainsFilter_ok hn,
        strContainsFilter_ok ha]
    · intro r
      simp only [List.mem_filter, and_assoc]
  · intro q hlit
    refine ⟨litRe (strLower q).data,
      parsePattern_literal (strLower_all_literal hlit), ?_⟩
    intro col row
    rw [rowMatches, searchRe_litRe]
    rfl

/-- Example frame with the two records of the spec's case-insensitivity
example. -/
def dfDragon : DF :=
  { cols := ["Name", "Artist"]
    rows := [[("Name", PyVal.str "Through the Fire and Flames"),
              ("Artist", PyVal.str "DragonForce")],
             [("Name", PyVal.str "Raining Blood (Dragon Mix)"),
              ("Artist", PyVal.str "Slayer")]] }

/-- Witness for C1 (amended): the name-only part at the spec example
`filter(records, "dragon", "")` on `dfDragon`, and the literal-query
part at the metacharacter-free query `"dragon"`. -/
theorem filter_conjunctive_regex_match_witness :
    (∃ dfOut, applyFilters dfDragon "dragon" "" = .ok dfOut ∧
      dfOut.cols = dfDragon.cols ∧
      ∀ r : Row, r ∈ dfOut.rows ↔
        r ∈ dfDragon.rows ∧
          rowMatches (patOrEmpty "dragon") "Name" r = true) ∧
    (∃ rq, parsePattern "dragon" = .ok rq ∧
      ∀ (col : String) (row : Row),
        rowMatches rq col row =
          containsSubstrCI (pyStr (getCell row col)) "dragon") :=
  ⟨filter_conjunctive_regex_match.1 dfDragon "dragon" (patOrEmpty "dragon")
      rfl (by decide) (by decide),
    filter_conjunctive_regex_match.2.2 "dragon" (by decide)⟩

/-- C3 counterexample: the query `"("` is rejected by `re.compile`
(`missing ), unterminated subpattern`); the exception escapes the filter
block instead of a row sequence being returned. -/
theorem filter_invalid_regex_error_counterexample :
    applyFilters dfMeta "(" "" = .error "missing ), unterminated subpattern" :=
  rfl

/-- C3 (amended): the filter block completes without an exception for
every frame and every pair of queries whose non-empty members compile as
regular expressions (in the modelled `re` subset); a malformed query
such as `"("` raises instead. -/
theorem filter_ok_on_valid_patterns (df : DF) (sn sa : String)
    (hn : ∃ r, parsePattern sn = .ok r) (ha : ∃ r, parsePattern sa = .ok r) :
    ∃ dfOut, applyFilters df sn sa = .ok dfOut := by
  obtain ⟨rn, hrn⟩ := hn
  obtain ⟨ra, hra⟩ := ha
  by_cases h1 : sn = "" <;> by_cases h2 : "Name" ∈ df.cols <;>
    by_cases h3 : sa = "" <;> by_cases h4 : "Artist" ∈ df.cols <;>
    simp [applyFilters, h1, h2, h3, h4, strContainsFilter_ok hrn,
      strContainsFilter_ok hra]

/-- Witness for C3 (amended) at concrete valid queries. -/
theorem filter_ok_on_valid_patterns_witness :
    ∃ dfOut, applyFilters dfMeta "dragon" "a.c" = .ok dfOut :=
  filter_ok_on_valid_patterns dfMeta "dragon" "a.c"
    ⟨patOrEmpty "dragon", rfl⟩ ⟨patOrEmpty "a.c", rfl⟩

/-- Example frame with one record whose name is null. -/
def dfNullName : DF := { cols := ["Name"], rows := [[("Name", PyVal.none)]] }

/-- C9 counterexample: a null name is coerced by `astype(str)` to the
string `"None"`, not to the empty string: with the non-empty query
`"none"` the record is retained, where the claim requires every
non-empty query to exclude it. -/
theorem null_name_matches_none_counterexample :
    applyFilters dfNullName "none" "" = .ok dfNullName ∧
    pyStr PyVal.none = "None" :=
  ⟨rfl, rfl⟩

/-- C9 (amended): a record whose name is null is coerced to the string
`"None"` for matching, so under a non-empty name query it is retained
exactly when the query matches case-insensitively inside `"None"`: the
query `"none"` does match it, while `"nan"` (which matches a
missing-key name, coerced to `"nan"`) does not. -/
theorem null_name_coerced_to_None (df : DF) (nq : String) (rn : Re)
    (hn : parsePattern nq = .ok rn) (hnq : nq ≠ "") (hN : "Name" ∈ df.cols) :
    (applyFilters df nq "" =
      .ok { cols := df.cols, rows := df.rows.filter (rowMatches rn "Name") }) ∧
    (∀ row : Row, getCell row "Name" = PyVal.none →
      rowMatches rn "Name" row = searchRe rn (strLower "None").data) ∧
    searchRe (patOrEmpty "none") (strLower "None").data = true ∧
    searchRe (patOrEmpty "nan") (strLower "None").data = false := by
  refine ⟨applyFilters_name_only hn hnq hN, ?_, rfl, rfl⟩
  intro row hrow
  rw [rowMatches, hrow]
  exact rfl

/-- Witness for C9 (amended) at the concrete query `"nan"` on
`dfNullName`. -/
theorem null_name_coerced_to_None_witness :
    (applyFilters dfNullName "nan" "" =
      .ok { cols := dfNullName.cols
            rows := dfNullName.rows.filter (rowMatches (patOrEmpty "nan") "Name") }) ∧
    (∀ row : Row, getCell row "Name" = PyVal.none →
      rowMatches (patOrEmpty "nan") "Name" row =
        searchRe (patOrEmpty "nan") (strLower "None").data) ∧
    searchRe (patOrEmpty "none") (strLower "None").data = true ∧
    searchRe (patOrEmpty "nan") (strLower "None").data = false :=
  null_name_coerced_to_None dfNullName "nan" (patOrEmpty "nan") rfl
    (by decide) (by decide)
